import Mathlib

/-!
Verification development for the channelblam moderation assistant.

The definitions below are a shallow embedding of the repository sources
(src/db.py, src/idv.py, src/main.py, src/utils.py).  Pure data and control
flow are translated directly; external HTTP calls (Slack client, identity
oracle) are modelled by explicit outcome parameters, and the sqlite policy
store is modelled as in-memory lists mirroring the three tables and the SQL
each db.py function executes.  Listing order of rows is abstracted (no
claim below depends on it).
-/

namespace Channelblam

/-- Runtime configuration resolved at startup in main.py: ADMIN_ID (always a
string once main runs) and BOT_USER_ID (None until resolved; main.py guards
uses with a truthiness check, hence Option). -/
structure Config where
  adminId : String
  botUserId : Option String

/-- The sqlite policy store of db.py: the channel_blammed, channel_whitelist
and channel_filters tables, each keyed as in the schema. -/
structure Store where
  blam : List (String × String)
  whitelist : List (String × String)
  idvLevel : List (String × Nat)

/-- Association-list lookup used to model SELECT by primary key on
channel_filters; absent row yields the default level 0 as in
db.get_idv_required_level. -/
def lookupLevel : List (String × Nat) → String → Nat
  | [], _ => 0
  | p :: rest, c => if p.1 = c then p.2 else lookupLevel rest c

/-- db.get_idv_required_level: SELECT idv_required_level WHERE channel_id = ?,
returning 0 when no row exists. -/
def get_idv_required_level (st : Store) (channel : String) : Nat :=
  lookupLevel st.idvLevel channel

/-- db.set_idv_required_level: INSERT ... ON CONFLICT(channel_id) DO UPDATE.
Upsert modelled as replacing the row for the channel. -/
def set_idv_required_level (st : Store) (channel : String) (level : Nat) : Store :=
  { st with idvLevel :=
      st.idvLevel.filter (fun p => !decide (p.1 = channel)) ++ [(channel, level)] }

/-- db.add_blam: INSERT OR IGNORE INTO channel_blammed (primary key
(channel_id, user_id)). -/
def add_blam (st : Store) (channel user : String) : Store :=
  if (channel, user) ∈ st.blam then st
  else { st with blam := st.blam ++ [(channel, user)] }

/-- db.remove_blam: DELETE FROM channel_blammed WHERE channel_id = ? AND
user_id = ?. -/
def remove_blam (st : Store) (channel user : String) : Store :=
  { st with blam := st.blam.filter (fun p => !decide (p.1 = channel ∧ p.2 = user)) }

/-- db.list_blammed: SELECT user_id FROM channel_blammed WHERE channel_id = ?.
The created_at DESC ordering is abstracted; only membership matters to the
claims below. -/
def list_blammed (st : Store) (channel : String) : List String :=
  (st.blam.filter (fun p => decide (p.1 = channel))).map (fun p => p.2)

/-- db.add_whitelist: INSERT OR IGNORE INTO channel_whitelist. -/
def add_whitelist (st : Store) (channel user : String) : Store :=
  if (channel, user) ∈ st.whitelist then st
  else { st with whitelist := st.whitelist ++ [(channel, user)] }

/-- db.remove_whitelist: DELETE FROM channel_whitelist WHERE channel_id = ?
AND user_id = ?. -/
def remove_whitelist (st : Store) (channel user : String) : Store :=
  { st with whitelist := st.whitelist.filter (fun p => !decide (p.1 = channel ∧ p.2 = user)) }

/-- db.list_whitelisted: SELECT user_id FROM channel_whitelist WHERE
channel_id = ?. -/
def list_whitelisted (st : Store) (channel : String) : List String :=
  (st.whitelist.filter (fun p => decide (p.1 = channel))).map (fun p => p.2)

theorem mem_list_blammed (st : Store) (channel user : String) :
    user ∈ list_blammed st channel ↔ (channel, user) ∈ st.blam := by
  simp only [list_blammed, List.mem_map, List.mem_filter, decide_eq_true_eq]
  constructor
  · rintro ⟨⟨c, v⟩, ⟨hm, hc⟩, rfl⟩
    exact hc ▸ hm
  · intro h
    exact ⟨(channel, user), ⟨h, rfl⟩, rfl⟩

theorem mem_list_whitelisted (st : Store) (channel user : String) :
    user ∈ list_whitelisted st channel ↔ (channel, user) ∈ st.whitelist := by
  simp only [list_whitelisted, List.mem_map, List.mem_filter, decide_eq_true_eq]
  constructor
  · rintro ⟨⟨c, v⟩, ⟨hm, hc⟩, rfl⟩
    exact hc ▸ hm
  · intro h
    exact ⟨(channel, user), ⟨h, rfl⟩, rfl⟩

/-- The single-user whitelist-add body in handle_blam (main.py lines 377-381):
remove_blam followed by add_whitelist for the mentioned user. -/
def whitelistUser (st : Store) (channel user : String) : Store :=
  add_whitelist (remove_blam st channel user) channel user

/-- The channel-wide whitelist operation in handle_blam (main.py lines
343-345): for each listed member, remove_blam then add_whitelist. -/
def whitelistChannel (st : Store) (members : List String) (channel : String) : Store :=
  members.foldl (fun s u => add_whitelist (remove_blam s channel u) channel u) st

theorem blam_whitelistUser (st : Store) (channel user : String) :
    (channel, user) ∉ (whitelistUser st channel user).blam ∧
      (channel, user) ∈ (whitelistUser st channel user).whitelist := by
  constructor
  · intro h
    unfold whitelistUser add_whitelist at h
    have hb : (channel, user) ∈ (remove_blam st channel user).blam := by
      by_cases hw : (channel, user) ∈ (remove_blam st channel user).whitelist <;>
        simpa [hw] using h
    simp [remove_blam, List.mem_filter] at hb
  · unfold whitelistUser add_whitelist
    by_cases hw : (channel, user) ∈ (remove_blam st channel user).whitelist <;>
      simp [hw]

theorem whitelistUser_preserves (st : Store) (channel user : String)
    (c u : String)
    (hb : (c, u) ∉ st.blam) (hw : (c, u) ∈ st.whitelist) :
    (c, u) ∉ (whitelistUser st channel user).blam ∧
      (c, u) ∈ (whitelistUser st channel user).whitelist := by
  constructor
  · intro h
    unfold whitelistUser add_whitelist at h
    have hb2 : (c, u) ∈ (remove_blam st channel user).blam := by
      by_cases hw2 : (channel, user) ∈ (remove_blam st channel user).whitelist <;>
        simpa [hw2] using h
    simp [remove_blam, List.mem_filter] at hb2
    exact hb hb2.1
  · unfold whitelistUser add_whitelist
    have hw2 : (c, u) ∈ (remove_blam st channel user).whitelist := by
      simpa [remove_blam] using hw
    by_cases hcase : (channel, user) ∈ (remove_blam st channel user).whitelist <;>
      simp [hcase, hw2]

theorem whitelistChannel_invariant (channel : String) :
    ∀ (members : List String) (st : Store) (c u : String),
      (c, u) ∉ st.blam → (c, u) ∈ st.whitelist →
      (c, u) ∉ (whitelistChannel st members channel).blam ∧
        (c, u) ∈ (whitelistChannel st members channel).whitelist := by
  intro members
  induction members with
  | nil => intro st c u hb hw; exact ⟨hb, hw⟩
  | cons m rest ih =>
    intro st c u hb hw
    have step := whitelistUser_preserves st channel m c u hb hw
    exact ih (whitelistUser st channel m) c u step.1 step.2

theorem whitelistChannel_covers (channel : String) :
    ∀ (members : List String) (st : Store) (u : String), u ∈ members →
      (channel, u) ∉ (whitelistChannel st members channel).blam ∧
        (channel, u) ∈ (whitelistChannel st members channel).whitelist := by
  intro members
  induction members with
  | nil => intro st u hu; cases hu
  | cons m rest ih =>
    intro st u hu
    rcases List.mem_cons.mp hu with h | h
    · subst h
      have step := blam_whitelistUser st channel u
      exact whitelistChannel_invariant channel rest (whitelistUser st channel u)
        channel u step.1 step.2
    · exact ih (whitelistUser st channel m) u h

/-- C9: adding a user to the whitelist, via the single-user whitelist command
or the channel-wide whitelist operation, deletes any BlamEntry for that
(channel, user): afterwards the user is absent from list_blammed and present
in list_whitelisted. -/
theorem claim_C9_whitelist_clears_blam (st : Store) (members : List String)
    (channel user : String) (hu : user ∈ members) :
    (user ∉ list_blammed (whitelistUser st channel user) channel ∧
      user ∈ list_whitelisted (whitelistUser st channel user) channel) ∧
    (user ∉ list_blammed (whitelistChannel st members channel) channel ∧
      user ∈ list_whitelisted (whitelistChannel st members channel) channel) := by
  have h1 := blam_whitelistUser st channel user
  have h2 := whitelistChannel_covers channel members st user hu
  refine ⟨⟨?_, ?_⟩, ?_, ?_⟩
  · rw [mem_list_blammed]; exact h1.1
  · rw [mem_list_whitelisted]; exact h1.2
  · rw [mem_list_blammed]; exact h2.1
  · rw [mem_list_whitelisted]; exact h2.2

/-- Witness for C9 at a concrete store where the user is blammed beforehand. -/
theorem claim_C9_witness :
    "U1AAA" ∈ ["U1AAA", "U2BBB"] ∧
    (("U1AAA" ∉ list_blammed
        (whitelistUser ⟨[("C0001", "U1AAA")], [], []⟩ "C0001" "U1AAA") "C0001" ∧
      "U1AAA" ∈ list_whitelisted
        (whitelistUser ⟨[("C0001", "U1AAA")], [], []⟩ "C0001" "U1AAA") "C0001") ∧
    ("U1AAA" ∉ list_blammed
        (whitelistChannel ⟨[("C0001", "U1AAA")], [], []⟩ ["U1AAA", "U2BBB"] "C0001") "C0001" ∧
      "U1AAA" ∈ list_whitelisted
        (whitelistChannel ⟨[("C0001", "U1AAA")], [], []⟩ ["U1AAA", "U2BBB"] "C0001") "C0001")) :=
  ⟨by decide,
    claim_C9_whitelist_clears_blam ⟨[("C0001", "U1AAA")], [], []⟩
      ["U1AAA", "U2BBB"] "C0001" "U1AAA" (by decide)⟩

/-- The possible outcomes of the single HTTP lookup inside idv.idvstatus:
the GET itself may raise (aiohttp transport error), response.json() may raise
on a non-JSON body, or a JSON body is obtained whose optional result field is
id_data.get with default None. The status code is carried for the non-200 log
line, which does not change control flow. -/
inductive IdvResponse where
  | transportRaise
  | malformedBody (status : Nat)
  | jsonBody (status : Nat) (result : Option String)
deriving DecidableEq

/-- The exceptions that can escape idv.idvstatus: the source has no
try/except, so a transport error or a JSON parse error propagates. -/
inductive IdvFailure where
  | transport
  | malformed
deriving DecidableEq

/-- idv.idvstatus (idv.py lines 29-38): on a JSON body it returns
id_data.get result regardless of the status code (a non-200 only logs);
on a transport or parse failure the exception propagates to the caller. -/
def idvstatus : IdvResponse → Except IdvFailure (Option String)
  | .transportRaise => .error .transport
  | .malformedBody _ => .error .malformed
  | .jsonBody _ result => .ok result

/-- Membership test of idv.is_idved: result in the two-element list of
passing statuses (a None result is never in the list). -/
def idv_pass_level1 (r : Option String) : Bool :=
  r == some "verified_eligible" || r == some "verified_but_over_18"

/-- Equality test of idv.is_idved_under18. -/
def idv_pass_level2 (r : Option String) : Bool :=
  r == some "verified_eligible"

/-- idv.is_idved: compares the idvstatus result against the passing list;
any exception from idvstatus propagates. -/
def is_idved (resp : IdvResponse) : Except IdvFailure Bool :=
  (idvstatus resp).map idv_pass_level1

/-- idv.is_idved_under18: compares the idvstatus result against
verified_eligible; any exception from idvstatus propagates. -/
def is_idved_under18 (resp : IdvResponse) : Except IdvFailure Bool :=
  (idvstatus resp).map idv_pass_level2

/-- C3 counterexample: a transport failure during the identity lookup does
not resolve to a not-eligible verdict; it raises out of is_idved, against the
claim that the verdict function never raises out of the enclosing decision. -/
theorem claim_C3_counterexample :
    is_idved IdvResponse.transportRaise = Except.error IdvFailure.transport ∧
      is_idved_under18 IdvResponse.transportRaise = Except.error IdvFailure.transport := by
  exact ⟨rfl, rfl⟩

/-- C3 amended: when the lookup yields a JSON body, the verdict never raises
and fails closed: any result other than a passing status (including the None
of a missing field, the shape a non-200 JSON error body produces) makes
is_idved and is_idved_under18 return false. A transport failure or a
non-JSON body instead raises out of the lookup. -/
theorem claim_C3_fail_closed (s s2 : Nat) (r : Option String)
    (h1 : r ≠ some "verified_eligible") (h2 : r ≠ some "verified_but_over_18") :
    is_idved (IdvResponse.jsonBody s r) = Except.ok false ∧
    is_idved_under18 (IdvResponse.jsonBody s r) = Except.ok false ∧
    is_idved IdvResponse.transportRaise = Except.error IdvFailure.transport ∧
    is_idved_under18 (IdvResponse.malformedBody s2) = Except.error IdvFailure.malformed := by
  have e1 : (r == some "verified_eligible") = false := beq_eq_false_iff_ne.mpr h1
  have e2 : (r == some "verified_but_over_18") = false := beq_eq_false_iff_ne.mpr h2
  refine ⟨?_, ?_, rfl, rfl⟩
  · simp [is_idved, idvstatus, Except.map, idv_pass_level1, e1, e2]
  · simp [is_idved_under18, idvstatus, Except.map, idv_pass_level2, e1]

/-- Witness for C3 amended at a 404 with a JSON error body missing the result
field. -/
theorem claim_C3_witness :
    ((none : Option String) ≠ some "verified_eligible" ∧
      (none : Option String) ≠ some "verified_but_over_18") ∧
    (is_idved (IdvResponse.jsonBody 404 none) = Except.ok false ∧
    is_idved_under18 (IdvResponse.jsonBody 404 none) = Except.ok false ∧
    is_idved IdvResponse.transportRaise = Except.error IdvFailure.transport ∧
    is_idved_under18 (IdvResponse.malformedBody 502) = Except.error IdvFailure.malformed) :=
  ⟨⟨by decide, by decide⟩,
    claim_C3_fail_closed 404 502 none (by decide) (by decide)⟩

/-- The two external per-user lookups the decision paths consult, modelled
as pure functions: idv.user_is_bot, and the successful idvstatus result used
by is_idved and is_idved_under18 (its failure modes are covered by
IdvResponse above). -/
structure Oracles where
  isBot : String → Bool
  idvResult : String → Option String

/-- Passing the level-1 identity check with the oracle result, as is_idved
computes it on a successful lookup. -/
def oracle_idved (o : Oracles) (user : String) : Bool :=
  idv_pass_level1 (o.idvResult user)

/-- Passing the level-2 identity check with the oracle result, as
is_idved_under18 computes it on a successful lookup. -/
def oracle_idved_under18 (o : Oracles) (user : String) : Bool :=
  idv_pass_level2 (o.idvResult user)

/-- An external lookup event, recorded to state short-circuiting claims. -/
inductive Lookup where
  | botLookup (user : String)
  | idvLookup (user : String)
deriving DecidableEq

/-- Result of the enforcement part of handle_member_joined_channel: the kicks
issued and the bot and identity lookups performed. -/
structure JoinResult where
  kicks : List (String × String)
  lookups : List Lookup
deriving DecidableEq

/-- The enforcement tail of main.handle_member_joined_channel (main.py lines
438-468), after the self-invite block: whitelist check first, then blam_ok
with the admin short-circuit, then the idv block guarded by blam_ok and a
nonzero stored level, with the bot check returning early and the level
selecting which identity comparison runs; a kick is issued unless blam_ok
and idv_ok both hold. -/
def memberJoinedEnforce (cfg : Config) (st : Store) (o : Oracles)
    (channel user : String) : JoinResult :=
  if user ∈ list_whitelisted st channel then ⟨[], []⟩
  else
    let bOk := decide (user = cfg.adminId) || !decide (user ∈ list_blammed st channel)
    let level := get_idv_required_level st channel
    if bOk && !decide (level = 0) then
      if o.isBot user then ⟨[], [.botLookup user]⟩
      else
        let idvOk := if level = 1 then oracle_idved o user
          else if level = 2 then oracle_idved_under18 o user
          else true
        let lookups := Lookup.botLookup user ::
          (if level = 1 ∨ level = 2 then [Lookup.idvLookup user] else [])
        if bOk && idvOk then ⟨[], lookups⟩ else ⟨[(channel, user)], lookups⟩
    else if bOk then ⟨[], []⟩
    else ⟨[(channel, user)], []⟩

/-- The needs_kick closure of the dry-run idv test branch in handle_blam
(main.py lines 215-226): admin or whitelisted scores 0, a bot or level 0
scores 0, level 1 scores on is_idved, any other level on is_idved_under18. -/
def needs_kick (cfg : Config) (o : Oracles) (whitelisted : List String)
    (levelnum : Nat) (user : String) : Nat :=
  if user = cfg.adminId ∨ user ∈ whitelisted then 0
  else if o.isBot user || decide (levelnum = 0) then 0
  else if levelnum = 1 then (if !oracle_idved o user then 1 else 0)
  else if !oracle_idved_under18 o user then 1 else 0

/-- The users collected into toblam by the live sweep of the idv-set branch
in handle_blam (main.py lines 291-305): every listed member that is not a
bot, not whitelisted, not the admin, and fails the identity comparison for
the new level. -/
def sweepTargets (cfg : Config) (st : Store) (o : Oracles)
    (members : List String) (channel : String) (levelnum : Nat) : List String :=
  members.filter (fun u =>
    !o.isBot u && !decide (u ∈ list_whitelisted st channel) &&
      !decide (u = cfg.adminId) &&
      ((decide (levelnum = 1) && !oracle_idved o u) ||
        (decide (levelnum = 2) && !oracle_idved_under18 o u)))

/-- Responses handle_blam sends, abstracted from their message strings. -/
inductive Response where
  | alreadySet (level : Nat)
  | setLevel (level : Nat)
  | testCount (n : Nat)
  | whitelistUsage
  | whitelistedChannel
  | removeMention
  | addMention
  | removedWhitelist (user : String)
  | whitelistedUser (user : String)
  | blammedUser (user : String)
deriving DecidableEq

/-- Observable effects of a handle_blam branch: Gateway kicks and invites
issued, member-listing pagination scans run, and responses sent. -/
structure HandlerOut where
  kicks : List (String × String)
  invites : List (String × String)
  memberScans : Nat
  responses : List Response
deriving DecidableEq

/-- The dry-run idv test branch of handle_blam (main.py lines 179-240): list
the members (one pagination scan), read the whitelist, sum needs_kick over
the members, and respond with the count; the store is returned unchanged and
no kick or invite is issued. -/
def idvTestBranch (cfg : Config) (st : Store) (o : Oracles)
    (members : List String) (channel : String) (levelnum : Nat) : HandlerOut × Store :=
  let whitelisted := list_whitelisted st channel
  let toKick := (members.map (needs_kick cfg o whitelisted levelnum)).sum
  ({ kicks := [], invites := [], memberScans := 1,
     responses := [Response.testCount toKick] }, st)

/-- The idv level-set branch of handle_blam (main.py lines 260-320): if the
stored level already equals the requested one, respond already-set and stop;
otherwise persist the new level and respond, and only on a transition from
stored level 0 to a nonzero level run the live sweep, kicking every
sweep target. -/
def idvSetBranch (cfg : Config) (st : Store) (o : Oracles)
    (members : List String) (channel : String) (levelnum : Nat) : HandlerOut × Store :=
  let oldLevel := get_idv_required_level st channel
  if oldLevel = levelnum then
    ({ kicks := [], invites := [], memberScans := 0,
       responses := [Response.alreadySet levelnum] }, st)
  else
    let st2 := set_idv_required_level st channel levelnum
    if oldLevel = 0 ∧ 0 < levelnum then
      let toblam := sweepTargets cfg st2 o members channel levelnum
      ({ kicks := toblam.map (fun u => (channel, u)), invites := [], memberScans := 1,
         responses := [Response.setLevel levelnum] }, st2)
    else
      ({ kicks := [], invites := [], memberScans := 0,
         responses := [Response.setLevel levelnum] }, st2)

/-- The explicit-blam add path of handle_blam (main.py lines 411-415):
add_blam for the target, then an unconditional kick, then the confirmation. -/
def blamAddBranch (st : Store) (channel target : String) : HandlerOut × Store :=
  ({ kicks := [(channel, target)], invites := [], memberScans := 0,
     responses := [Response.blammedUser target] }, add_blam st channel target)

/-- First component of token.split with separator bar, as the whitelist
branch applies it to its user argument: the characters before the first bar,
modelled at the character level. -/
def splitToken (s : String) : String :=
  String.mk (s.data.takeWhile (fun c => c != '|'))

/-- Python str.lower applied to a token, modelled at the character level
(the tokens involved are ASCII). -/
def lowerToken (s : String) : String :=
  String.mk (s.data.map Char.toLower)

/-- The compiled pattern matching user ids: one U or W followed by at least
two uppercase alphanumerics, anchored at both ends. -/
def matchesUserIdPattern (s : String) : Bool :=
  match s.data with
  | c :: rest => (c == 'U' || c == 'W') && decide (2 ≤ rest.length) &&
      rest.all (fun d => d.isUpper || d.isDigit)
  | [] => false

/-- The whitelist add tail of the whitelist branch (main.py lines 373-384):
validate the lowercased second token against the user-id pattern, then
remove_blam and add_whitelist and confirm. -/
def whitelistAddTail (st : Store) (channel second : String) : List Response × Store :=
  let u := splitToken second
  if !matchesUserIdPattern u then ([Response.addMention], st)
  else ([Response.whitelistedUser u], whitelistUser st channel u)

/-- The whitelist branch of handle_blam (main.py lines 321-385), with tokens
the split command text starting at the whitelist keyword. The remove
sub-branch sends its confirmation but does not return, falling through into
the single-user add tail with the literal second token. -/
def whitelistBranch (st : Store) (members : List String) (channel : String)
    (tokens : List String) : List Response × Store :=
  if tokens.length < 2 then ([Response.whitelistUsage], st)
  else
    let second := lowerToken (tokens.getD 1 "")
    if second = "channel" then
      ([Response.whitelistedChannel], whitelistChannel st members channel)
    else if second = "remove" then
      if tokens.length < 3 then ([Response.removeMention], st)
      else
        let u := splitToken (tokens.getD 2 "")
        if !matchesUserIdPattern u then ([Response.removeMention], st)
        else
          let st2 := remove_whitelist st channel u
          let tail := whitelistAddTail st2 channel second
          (Response.removedWhitelist u :: tail.1, tail.2)
    else whitelistAddTail st channel second

theorem lookupLevel_set (l : List (String × Nat)) (ch : String) (lv : Nat) :
    lookupLevel (l.filter (fun p => !decide (p.1 = ch)) ++ [(ch, lv)]) ch = lv := by
  induction l with
  | nil => simp [lookupLevel]
  | cons p rest ih =>
    by_cases h : p.1 = ch
    · simpa [List.filter_cons, h] using ih
    · simpa [List.filter_cons, h, lookupLevel] using ih

theorem get_set_level (st : Store) (ch : String) (lv : Nat) :
    get_idv_required_level (set_idv_required_level st ch lv) ch = lv :=
  lookupLevel_set st.idvLevel ch lv

/-- C1 counterexample: with idv_required_level 1, an empty whitelist, a
non-bot classification and a failing identity verdict, the member-joined
path kicks the root operator id itself: the operator is exempt from the blam
check only, not from the identity check. -/
theorem claim_C1_counterexample :
    (memberJoinedEnforce ⟨"U0ADMIN", none⟩ ⟨[], [], [("C0001", 1)]⟩
        ⟨fun _ => false, fun _ => none⟩ "C0001" "U0ADMIN").kicks =
      [("C0001", "U0ADMIN")] := by
  rfl

/-- C1 amended: the removal decision for the root operator id is always
false on the policy-change sweep and on the dry-run count; on the
member-joined path it is false whenever the stored level is 0 (the operator
is exempt from the blam check) but the operator remains subject to the
identity check when the level is nonzero; and on the explicit-blam path the
operator is not exempt at all: the add path kicks whatever target it is
given. -/
theorem claim_C1_operator_exemption (cfg : Config) (st : Store) (o : Oracles)
    (members : List String) (channel target : String) (levelnum : Nat)
    (hlevel : get_idv_required_level st channel = 0) :
    cfg.adminId ∉ sweepTargets cfg st o members channel levelnum ∧
    needs_kick cfg o (list_whitelisted st channel) levelnum cfg.adminId = 0 ∧
    (memberJoinedEnforce cfg st o channel cfg.adminId).kicks = [] ∧
    (blamAddBranch st channel target).1.kicks = [(channel, target)] := by
  refine ⟨?_, ?_, ?_, rfl⟩
  · intro h
    simp [sweepTargets, List.mem_filter] at h
  · simp [needs_kick]
  · by_cases hw : cfg.adminId ∈ list_whitelisted st channel <;>
      simp [memberJoinedEnforce, hw, hlevel]

/-- Witness for C1 amended at a concrete store with level 0. -/
theorem claim_C1_witness :
    get_idv_required_level ⟨[], [], []⟩ "C0001" = 0 ∧
    ("U0ADMIN" ∉ sweepTargets ⟨"U0ADMIN", none⟩ ⟨[], [], []⟩
        ⟨fun _ => false, fun _ => none⟩ ["U1AAA"] "C0001" 1 ∧
      needs_kick ⟨"U0ADMIN", none⟩ ⟨fun _ => false, fun _ => none⟩
        (list_whitelisted ⟨[], [], []⟩ "C0001") 1 "U0ADMIN" = 0 ∧
      (memberJoinedEnforce ⟨"U0ADMIN", none⟩ ⟨[], [], []⟩
        ⟨fun _ => false, fun _ => none⟩ "C0001" "U0ADMIN").kicks = [] ∧
      (blamAddBranch ⟨[], [], []⟩ "C0001" "U2BBB").1.kicks = [("C0001", "U2BBB")]) :=
  ⟨rfl, claim_C1_operator_exemption ⟨"U0ADMIN", none⟩ ⟨[], [], []⟩
    ⟨fun _ => false, fun _ => none⟩ ["U1AAA"] "C0001" "U2BBB" 1 rfl⟩

/-- C2: a whitelisted user is never removed, whatever the blam rows, the
stored level, and the oracles: the member-joined path returns with no kick
and no bot or identity lookup, the dry-run count scores the user 0, and the
live sweep never selects the user. -/
theorem claim_C2_whitelist_exempts (cfg : Config) (st : Store) (o : Oracles)
    (members : List String) (channel user : String) (levelnum : Nat)
    (hw : user ∈ list_whitelisted st channel) :
    memberJoinedEnforce cfg st o channel user = ⟨[], []⟩ ∧
    needs_kick cfg o (list_whitelisted st channel) levelnum user = 0 ∧
    user ∉ sweepTargets cfg st o members channel levelnum := by
  refine ⟨?_, ?_, ?_⟩
  · simp [memberJoinedEnforce, hw]
  · simp [needs_kick, hw]
  · intro h
    simp [sweepTargets, List.mem_filter, hw] at h

/-- Witness for C2 at a store whose whitelist holds the user, with a blam
row for the same user and level 2 stored. -/
theorem claim_C2_witness :
    "U1AAA" ∈ list_whitelisted
        ⟨[("C0001", "U1AAA")], [("C0001", "U1AAA")], [("C0001", 2)]⟩ "C0001" ∧
    (memberJoinedEnforce ⟨"U0ADMIN", none⟩
        ⟨[("C0001", "U1AAA")], [("C0001", "U1AAA")], [("C0001", 2)]⟩
        ⟨fun _ => false, fun _ => none⟩ "C0001" "U1AAA" = ⟨[], []⟩ ∧
      needs_kick ⟨"U0ADMIN", none⟩ ⟨fun _ => false, fun _ => none⟩
        (list_whitelisted
          ⟨[("C0001", "U1AAA")], [("C0001", "U1AAA")], [("C0001", 2)]⟩ "C0001")
        2 "U1AAA" = 0 ∧
      "U1AAA" ∉ sweepTargets ⟨"U0ADMIN", none⟩
        ⟨[("C0001", "U1AAA")], [("C0001", "U1AAA")], [("C0001", 2)]⟩
        ⟨fun _ => false, fun _ => none⟩ ["U1AAA"] "C0001" 2) :=
  ⟨by decide, claim_C2_whitelist_exempts ⟨"U0ADMIN", none⟩
    ⟨[("C0001", "U1AAA")], [("C0001", "U1AAA")], [("C0001", 2)]⟩
    ⟨fun _ => false, fun _ => none⟩ ["U1AAA"] "C0001" "U1AAA" 2 (by decide)⟩

/-- C4: the idv-set trigger runs the live membership sweep exactly when the
stored level was 0 and the new level is nonzero; setting the stored level
again responds already-set with no store write and no kick; any other
transition persists the level and responds set, and performs no kick unless
it is the 0-to-nonzero transition. -/
theorem claim_C4_policy_transition (cfg : Config) (st : Store) (o : Oracles)
    (members : List String) (channel : String) (levelnum : Nat) :
    ((idvSetBranch cfg st o members channel levelnum).1.memberScans = 1 ↔
      get_idv_required_level st channel = 0 ∧ 0 < levelnum) ∧
    (get_idv_required_level st channel = levelnum →
      idvSetBranch cfg st o members channel levelnum =
        ({ kicks := [], invites := [], memberScans := 0,
           responses := [Response.alreadySet levelnum] }, st)) ∧
    (get_idv_required_level st channel ≠ levelnum →
      get_idv_required_level (idvSetBranch cfg st o members channel levelnum).2 channel
          = levelnum ∧
      (idvSetBranch cfg st o members channel levelnum).1.responses =
        [Response.setLevel levelnum]) ∧
    (¬(get_idv_required_level st channel = 0 ∧ 0 < levelnum) →
      (idvSetBranch cfg st o members channel levelnum).1.kicks = []) := by
  by_cases h1 : get_idv_required_level st channel = levelnum
  · refine ⟨?_, fun _ => ?_, fun h2 => absurd h1 h2, fun _ => ?_⟩
    · simp [idvSetBranch, h1]
    · simp [idvSetBranch, h1]
    · simp [idvSetBranch, h1]
  · by_cases h2 : get_idv_required_level st channel = 0 ∧ 0 < levelnum
    · obtain ⟨h0, hpos⟩ := h2
      have hne : ¬((0 : Nat) = levelnum) := by omega
      refine ⟨?_, fun h => absurd h h1, fun _ => ⟨?_, ?_⟩, fun h => absurd ⟨h0, hpos⟩ h⟩
      · simp [idvSetBranch, h0, hpos, hne]
      · simp [idvSetBranch, h0, hpos, hne, get_set_level]
      · simp [idvSetBranch, h0, hpos, hne]
    · refine ⟨?_, fun h => absurd h h1, fun _ => ⟨?_, ?_⟩, fun _ => ?_⟩
      · simp [idvSetBranch, h1, h2]
      · simp [idvSetBranch, h1, h2, get_set_level]
      · simp [idvSetBranch, h1, h2]
      · simp [idvSetBranch, h1, h2]

/-- Witness for C4 at a store with level 2 stored, setting level 0: the
level is persisted, no sweep runs and no kick is issued. -/
theorem claim_C4_witness :
    (((idvSetBranch ⟨"U0ADMIN", none⟩ ⟨[], [], [("C0001", 2)]⟩
        ⟨fun _ => false, fun _ => none⟩ ["U1AAA"] "C0001" 0).1.memberScans = 1 ↔
      get_idv_required_level ⟨[], [], [("C0001", 2)]⟩ "C0001" = 0 ∧ 0 < 0) ∧
    (get_idv_required_level ⟨[], [], [("C0001", 2)]⟩ "C0001" = 0 →
      idvSetBranch ⟨"U0ADMIN", none⟩ ⟨[], [], [("C0001", 2)]⟩
          ⟨fun _ => false, fun _ => none⟩ ["U1AAA"] "C0001" 0 =
        ({ kicks := [], invites := [], memberScans := 0,
           responses := [Response.alreadySet 0] }, ⟨[], [], [("C0001", 2)]⟩)) ∧
    (get_idv_required_level ⟨[], [], [("C0001", 2)]⟩ "C0001" ≠ 0 →
      get_idv_required_level (idvSetBranch ⟨"U0ADMIN", none⟩ ⟨[], [], [("C0001", 2)]⟩
          ⟨fun _ => false, fun _ => none⟩ ["U1AAA"] "C0001" 0).2 "C0001" = 0 ∧
      (idvSetBranch ⟨"U0ADMIN", none⟩ ⟨[], [], [("C0001", 2)]⟩
          ⟨fun _ => false, fun _ => none⟩ ["U1AAA"] "C0001" 0).1.responses =
        [Response.setLevel 0]) ∧
    (¬(get_idv_required_level ⟨[], [], [("C0001", 2)]⟩ "C0001" = 0 ∧ 0 < 0) →
      (idvSetBranch ⟨"U0ADMIN", none⟩ ⟨[], [], [("C0001", 2)]⟩
          ⟨fun _ => false, fun _ => none⟩ ["U1AAA"] "C0001" 0).1.kicks = [])) :=
  claim_C4_policy_transition ⟨"U0ADMIN", none⟩ ⟨[], [], [("C0001", 2)]⟩
    ⟨fun _ => false, fun _ => none⟩ ["U1AAA"] "C0001" 0

/-- C5: the dry-run idv test issues no kick and no invite, leaves the policy
store untouched, and responds only with the count of members that would be
kicked at the tested level. -/
theorem claim_C5_dry_run (cfg : Config) (st : Store) (o : Oracles)
    (members : List String) (channel : String) (levelnum : Nat) :
    (idvTestBranch cfg st o members channel levelnum).1.kicks = [] ∧
    (idvTestBranch cfg st o members channel levelnum).1.invites = [] ∧
    (idvTestBranch cfg st o members channel levelnum).2 = st ∧
    (idvTestBranch cfg st o members channel levelnum).1.responses =
      [Response.testCount
        ((members.map (needs_kick cfg o (list_whitelisted st channel) levelnum)).sum)] :=
  ⟨rfl, rfl, rfl, rfl⟩

/-- C10: a valid whitelist remove command removes the whitelist entry and
confirms, then falls through into the single-user add branch where the
literal token remove fails the user-id pattern, so a second usage response
is sent and no further store mutation happens. -/
theorem claim_C10_remove_falls_through (st : Store) (members : List String)
    (channel u : String) (h : matchesUserIdPattern (splitToken u) = true) :
    whitelistBranch st members channel ["whitelist", "remove", u] =
      ([Response.removedWhitelist (splitToken u), Response.addMention],
        remove_whitelist st channel (splitToken u)) := by
  have e1 : lowerToken "remove" = "remove" := rfl
  have e2 : ¬(("remove" : String) = "channel") := by decide
  have e3 : matchesUserIdPattern (splitToken "remove") = false := rfl
  simp [whitelistBranch, whitelistAddTail, e1, e2, e3, h]

/-- Witness for C10 with the raw user id token U1234. -/
theorem claim_C10_witness :
    matchesUserIdPattern (splitToken "U1234") = true ∧
    whitelistBranch ⟨[], [("C0001", "U1234")], []⟩ [] "C0001"
        ["whitelist", "remove", "U1234"] =
      ([Response.removedWhitelist (splitToken "U1234"), Response.addMention],
        remove_whitelist ⟨[], [("C0001", "U1234")], []⟩ "C0001" (splitToken "U1234")) :=
  ⟨by decide, claim_C10_remove_falls_through ⟨[], [("C0001", "U1234")], []⟩ [] "C0001"
    "U1234" (by decide)⟩

/-- One page of a paginated member listing: the result list and the
continuation cursor (None models an absent or empty cursor, which Python
truthiness treats alike). -/
structure Page where
  results : List String
  next : Option String
deriving DecidableEq

/-- The pagination loop of utils._fetch_channel_members (utils.py lines
58-79), fueled: each iteration appends the page results and stops when the
next marker is absent or the result list of the page is empty; None models
running out of fuel, which the source loop would spend looping. -/
def fetchMembersLoop (pages : Nat → Page) (acc : List String) (i fuel : Nat) :
    Option (List String) :=
  match fuel with
  | 0 => none
  | f + 1 =>
    let page := pages i
    let acc2 := acc ++ page.results
    if page.next.isNone || page.results.isEmpty then some acc2
    else fetchMembersLoop pages acc2 (i + 1) f

/-- The member-listing loops of main.py (handle_blam lines 202-210, 281-290,
333-342, and _is_channel_manager lines 58-77 share this shape), fueled: each
iteration appends the page members and stops only when the next cursor is
absent. -/
def mainMembersLoop (pages : Nat → Page) (acc : List String) (i fuel : Nat) :
    Option (List String) :=
  match fuel with
  | 0 => none
  | f + 1 =>
    let page := pages i
    let acc2 := acc ++ page.results
    match page.next with
    | none => some acc2
    | some _ => mainMembersLoop pages acc2 (i + 1) f

theorem mainMembersLoop_stuck (pages : Nat → Page) :
    ∀ (fuel i : Nat) (acc : List String),
      (∀ j, i ≤ j → (pages j).results = [] ∧ (pages j).next.isSome = true) →
      mainMembersLoop pages acc i fuel = none := by
  intro fuel
  induction fuel with
  | zero => intro i acc h; rfl
  | succ f ih =>
    intro i acc h
    obtain ⟨h1, h2⟩ := h i (Nat.le_refl i)
    obtain ⟨c, hc⟩ := Option.isSome_iff_exists.mp h2
    simp only [mainMembersLoop, hc]
    exact ih (i + 1) (acc ++ (pages i).results) (fun j hj => h j (Nat.le_of_succ_le hj))

/-- A malformed pagination stream: two member pages, then every further
fetch returns an empty result list while still presenting a cursor. -/
def cexPages : Nat → Page :=
  fun i => ([⟨["U1AAA", "U2BBB"], some "c1"⟩, ⟨["U3CCC"], some "c2"⟩] : List Page).getD i
    ⟨[], some "c3"⟩

/-- The main.py member-listing loop never returns on cexPages, for any
amount of fuel. -/
def mainLoopNeverFinishes : Prop :=
  ∀ fuel, mainMembersLoop cexPages [] 0 fuel = none

/-- C6 counterexample: on a stream whose third and later pages are empty but
still carry a cursor, the member-listing loop shape used in main.py never
terminates, while utils._fetch_channel_members returns the two member pages;
so not every paginated member-listing loop in the program treats an empty
page as terminal. -/
theorem claim_C6_counterexample :
    mainLoopNeverFinishes ∧
      fetchMembersLoop cexPages [] 0 5 = some ["U1AAA", "U2BBB", "U3CCC"] := by
  constructor
  · intro fuel
    match fuel with
    | 0 => rfl
    | 1 => rfl
    | f + 2 =>
      have p0 : cexPages 0 = ⟨["U1AAA", "U2BBB"], some "c1"⟩ := rfl
      have p1 : cexPages 1 = ⟨["U3CCC"], some "c2"⟩ := rfl
      simp only [mainMembersLoop, p0, p1]
      refine mainMembersLoop_stuck cexPages f 2 _ ?_
      intro j hj
      obtain ⟨k, rfl⟩ := Nat.exists_eq_add_of_le hj
      rw [Nat.add_comm]
      exact ⟨rfl, rfl⟩
  · rfl

/-- C6 amended: the utils._fetch_channel_members loop does treat an empty
result page as terminal even when a cursor is still present, returning
exactly the members of the preceding non-empty pages in order; the
member-listing loops written inline in main.py stop only on an absent
cursor and never return on a stream of empty pages with cursors. -/
theorem claim_C6_pagination (ms0 ms1 : List String) (c0 c1 c2 cur : String)
    (fuel : Nat) (h0 : ms0 ≠ []) (h1 : ms1 ≠ []) :
    fetchMembersLoop
        (fun i => ([⟨ms0, some c0⟩, ⟨ms1, some c1⟩] : List Page).getD i ⟨[], some c2⟩)
        [] 0 3 = some (ms0 ++ ms1) ∧
    mainMembersLoop (fun _ => ⟨[], some cur⟩) [] 0 fuel = none := by
  constructor
  · match ms0, h0, ms1, h1 with
    | a0 :: t0, _, a1 :: t1, _ => simp [fetchMembersLoop]
  · exact mainMembersLoop_stuck _ fuel 0 [] (fun j hj => ⟨rfl, rfl⟩)

/-- Witness for C6 amended at the three-page scenario with fuel 4. -/
theorem claim_C6_witness :
    ((["U1AAA", "U2BBB"] : List String) ≠ [] ∧ (["U3CCC"] : List String) ≠ []) ∧
    (fetchMembersLoop
        (fun i => ([⟨["U1AAA", "U2BBB"], some "cA"⟩, ⟨["U3CCC"], some "cB"⟩] :
          List Page).getD i ⟨[], some "cC"⟩)
        [] 0 3 = some (["U1AAA", "U2BBB"] ++ ["U3CCC"]) ∧
    mainMembersLoop (fun _ => ⟨[], some "cD"⟩) [] 0 4 = none) :=
  ⟨⟨by decide, by decide⟩,
    claim_C6_pagination ["U1AAA", "U2BBB"] ["U3CCC"] "cA" "cB" "cC" "cD" 4
      (by decide) (by decide)⟩

/-- Outcomes of _kick_xoxc (main.py lines 488-499): the call chain may raise
(missing env var, transport or JSON failure), or complete with an ok
response, or complete with a non-ok response, which the function only logs
before returning normally. -/
inductive XoxcOutcome where
  | raised
  | okResp
  | failResp (error : String)
deriving DecidableEq

/-- Outcomes of the fallback conversations_kick call with the personal token
(main.py lines 478-485): success, a SlackApiError carrying an error string
(the only exception class its except clause catches), or any other raised
exception, such as a transport error, which that clause does not catch. -/
inductive FallbackOutcome where
  | ok
  | apiError (error : String)
  | raised
deriving DecidableEq

/-- Observable behaviour of one _kick_if_possible call: whether the fallback
credential was tried, how many warnings were logged, and whether an
exception escaped to the caller. -/
structure KickTrace where
  fallbackAttempted : Bool
  warnings : Nat
  raised : Bool
deriving DecidableEq

/-- Model of _kick_xoxc: an exception propagates; otherwise the function returns,
logging one warning when the response is not ok. -/
def kick_xoxc : XoxcOutcome → Except Unit Nat
  | .raised => .error ()
  | .okResp => .ok 0
  | .failResp _ => .ok 1

/-- Model of _kick_if_possible (main.py lines 471-486): try _kick_xoxc and return on
normal completion; on an exception log a warning and try the personal-token
kick, where a not_in_channel SlackApiError returns silently and any other
SlackApiError logs a warning, while an exception outside SlackApiError is
not caught and escapes to the caller. -/
def kick_if_possible (p : XoxcOutcome) (f : FallbackOutcome) : KickTrace :=
  match kick_xoxc p with
  | .ok w => ⟨false, w, false⟩
  | .error _ =>
    match f with
    | .ok => ⟨true, 1, false⟩
    | .apiError e =>
      if e = "not_in_channel" then ⟨true, 1, false⟩ else ⟨true, 2, false⟩
    | .raised => ⟨true, 1, true⟩

/-- C7 counterexample: a failure of the primary path in the form of a non-ok
response does not trigger the personal-credential fallback; _kick_xoxc logs
it and returns normally, so _kick_if_possible stops there. -/
theorem claim_C7_counterexample :
    (kick_if_possible (XoxcOutcome.failResp "cant_kick_user")
      FallbackOutcome.ok).fallbackAttempted = false := by
  rfl

/-- C7 amended: the kick tries the primary elevated-session credential
first; the fallback personal-account credential is tried exactly when the
primary path raised, not on a logged non-ok response; on the fallback a
not_in_channel Slack API error adds no warning beyond the primary-failure
log and any other Slack API error adds one warning without being raised,
but only SlackApiError is caught there: an exception escapes to the caller
exactly when the primary raised and the fallback then raised an exception
outside SlackApiError. -/
theorem claim_C7_kick_fallback (p : XoxcOutcome) (f : FallbackOutcome)
    (e : String) (he : e ≠ "not_in_channel") :
    ((kick_if_possible p f).fallbackAttempted = true ↔ p = XoxcOutcome.raised) ∧
    ((kick_if_possible p f).raised = true ↔
      p = XoxcOutcome.raised ∧ f = FallbackOutcome.raised) ∧
    (kick_if_possible XoxcOutcome.raised
      (FallbackOutcome.apiError "not_in_channel")).warnings = 1 ∧
    (kick_if_possible XoxcOutcome.raised (FallbackOutcome.apiError e)).warnings = 2 := by
  refine ⟨?_, ?_, rfl, ?_⟩
  · cases p with
    | okResp => simp [kick_if_possible, kick_xoxc]
    | failResp e2 => simp [kick_if_possible, kick_xoxc]
    | raised =>
      cases f with
      | ok => simp [kick_if_possible, kick_xoxc]
      | raised => simp [kick_if_possible, kick_xoxc]
      | apiError e2 =>
        by_cases h : e2 = "not_in_channel" <;> simp [kick_if_possible, kick_xoxc, h]
  · cases p with
    | okResp => simp [kick_if_possible, kick_xoxc]
    | failResp e2 => simp [kick_if_possible, kick_xoxc]
    | raised =>
      cases f with
      | ok => simp [kick_if_possible, kick_xoxc]
      | raised => simp [kick_if_possible, kick_xoxc]
      | apiError e2 =>
        by_cases h : e2 = "not_in_channel" <;> simp [kick_if_possible, kick_xoxc, h]
  · simp [kick_if_possible, kick_xoxc, he]

/-- Witness for C7 amended with a raised primary and a fallback raising an
exception outside SlackApiError: the exception escapes to the caller. -/
theorem claim_C7_witness :
    ("cant_kick_user" : String) ≠ "not_in_channel" ∧
    (((kick_if_possible XoxcOutcome.raised
        FallbackOutcome.raised).fallbackAttempted = true ↔
      XoxcOutcome.raised = XoxcOutcome.raised) ∧
    ((kick_if_possible XoxcOutcome.raised FallbackOutcome.raised).raised = true ↔
      XoxcOutcome.raised = XoxcOutcome.raised ∧
        FallbackOutcome.raised = FallbackOutcome.raised) ∧
    (kick_if_possible XoxcOutcome.raised
      (FallbackOutcome.apiError "not_in_channel")).warnings = 1 ∧
    (kick_if_possible XoxcOutcome.raised
      (FallbackOutcome.apiError "cant_kick_user")).warnings = 2) :=
  ⟨by decide,
    claim_C7_kick_fallback XoxcOutcome.raised FallbackOutcome.raised "cant_kick_user"
      (by decide)⟩

/-- A member_left_channel event body: channel, departed user, and the actor
who removed them, each possibly absent. -/
structure LeftEvent where
  channel : Option String
  user : Option String
  actor : Option String

/-- main._is_channel_manager (main.py lines 55-77): a missing actor is not a
manager; otherwise the actor is recognized when present in the listed
channel membership, here abstracted by membersOf. -/
def is_channel_manager (membersOf : String → List String) (channel : String) :
    Option String → Bool
  | none => false
  | some u => decide (u ∈ membersOf channel)

/-- main.handle_member_left_channel (main.py lines 540-557): missing channel
or user ends processing; a recognized channel-manager actor ends processing;
otherwise the departed bot identity is re-invited, and failing that the
departed admin identity is re-invited. Returns the invites issued. -/
def handle_member_left (cfg : Config) (membersOf : String → List String)
    (ev : LeftEvent) : List (String × String) :=
  match ev.channel, ev.user with
  | some channel, some user =>
    if is_channel_manager membersOf channel ev.actor then []
    else if cfg.botUserId = some user then [(channel, user)]
    else if user = cfg.adminId then [(channel, cfg.adminId)]
    else []
  | _, _ => []

/-- C8: on a member-left event, when the departed user is the bot identity
or the admin identity, the departed identity is re-invited exactly when the
actor is not a recognized channel manager; a recognized manager actor
suppresses every re-invite. -/
theorem claim_C8_protected_reinvite (cfg : Config)
    (membersOf : String → List String) (channel user : String)
    (actor : Option String) :
    (is_channel_manager membersOf channel actor = true →
      handle_member_left cfg membersOf ⟨some channel, some user, actor⟩ = []) ∧
    (is_channel_manager membersOf channel actor = false →
      cfg.botUserId = some user ∨ user = cfg.adminId →
      handle_member_left cfg membersOf ⟨some channel, some user, actor⟩ =
        [(channel, user)]) := by
  constructor
  · intro h
    simp [handle_member_left, h]
  · intro h hid
    rcases hid with hb | ha
    · simp [handle_member_left, h, hb]
    · by_cases hb2 : cfg.botUserId = some user
      · simp [handle_member_left, h, hb2]
      · simp [handle_member_left, h, hb2, ha]

/-- Witness for C8: the bot identity removed by a non-manager actor is
re-invited; the same event with a manager actor yields no invite. -/
theorem claim_C8_witness :
    (is_channel_manager (fun _ => ["U9MGR"]) "C0001" (some "U9MGR") = true →
      handle_member_left ⟨"U0ADMIN", some "U7BOT"⟩ (fun _ => ["U9MGR"])
        ⟨some "C0001", some "U7BOT", some "U9MGR"⟩ = []) ∧
    (is_channel_manager (fun _ => ["U9MGR"]) "C0001" (some "U9MGR") = false →
      (⟨"U0ADMIN", some "U7BOT"⟩ : Config).botUserId = some "U7BOT" ∨
        "U7BOT" = (⟨"U0ADMIN", some "U7BOT"⟩ : Config).adminId →
      handle_member_left ⟨"U0ADMIN", some "U7BOT"⟩ (fun _ => ["U9MGR"])
        ⟨some "C0001", some "U7BOT", some "U9MGR"⟩ = [("C0001", "U7BOT")]) :=
  claim_C8_protected_reinvite ⟨"U0ADMIN", some "U7BOT"⟩ (fun _ => ["U9MGR"])
    "C0001" "U7BOT" (some "U9MGR")

end Channelblam
